import Mathlib

/-!
Shallow embedding of the interview_coach repository core:
the session state machine of src/interview_coach/api/session_manager.py,
the response-submission route of src/interview_coach/api/routes.py, and
the retrieval subsystem of src/rag/rag_service.py with its configuration
from src/rag/rag_config.py.  Timestamps (datetime.now in the source) are
modelled as a Nat clock value passed to each operation; the asyncio event
attached to each session is modelled as a Bool flag.
-/

namespace InterviewCoach

/-- Status of an interview session (models.InterviewStatus). -/
inductive InterviewStatus where
  | INITIALIZING
  | READY
  | IN_PROGRESS
  | AWAITING_RESPONSE
  | EVALUATING
  | COMPLETED
  | ERROR
  deriving DecidableEq

/-- Status of a question in the interview (models.QuestionStatus). -/
inductive QuestionStatus where
  | PENDING
  | ASKED
  | ANSWERED
  | FOLLOW_UP_ASKED
  | COMPLETED
  deriving DecidableEq

/-- State of a single question in the interview (session_manager.QuestionState). -/
structure QuestionState where
  index : Nat
  topic : String
  resume_context : String
  primary_question : Option String := none
  primary_response : Option String := none
  follow_up_question : Option String := none
  follow_up_response : Option String := none
  status : QuestionStatus := QuestionStatus.PENDING
  asked_at : Option Nat := none
  answered_at : Option Nat := none
  deriving DecidableEq

/-- One entry of the saved transcript (models.TranscriptEntry, as produced by
advance_to_next_question). -/
structure TranscriptEntry where
  question_number : Nat
  topic : String
  question : String
  response : String
  follow_up_question : Option String
  follow_up_response : Option String
  timestamp : Nat
  deriving DecidableEq

/-- Complete state of an interview session (session_manager.InterviewSession).
The scores dict is modelled as an association list; the asyncio.Event is the
response_event_set flag. -/
structure InterviewSession where
  session_id : String
  candidate_name : String
  job_description : String
  resume_pdf_path : Option String
  status : InterviewStatus
  created_at : Nat
  last_activity : Nat
  interview_topics : List String := []
  questions : List QuestionState := []
  current_question_index : Nat := 0
  transcript_entries : List TranscriptEntry := []
  evaluation_report : String := ""
  scores : List (String × String) := []
  rag_session_id : String := ""
  pending_response : Option String := none
  response_event_set : Bool := false
  deriving DecidableEq

/-- total_questions property: len(self.interview_topics). -/
def InterviewSession.total_questions (s : InterviewSession) : Nat :=
  s.interview_topics.length

/-- current_question property: questions[current_question_index] when the
index is in range, None otherwise. -/
def InterviewSession.current_question (s : InterviewSession) : Option QuestionState :=
  s.questions.get? s.current_question_index

/-- Exceptions raised by SessionManager methods: ValueError in create_session,
KeyError in get_session_or_raise, ValueError in set_current_question and
submit_response when no current question exists. -/
inductive SessionError where
  | sessionAlreadyExists (id : String)
  | sessionNotFound (id : String)
  | noCurrentQuestion
  deriving DecidableEq

/-- The session record built by create_session. -/
def newInterviewSession (id name jd : String) (pdf : Option String) (now : Nat) :
    InterviewSession :=
  { session_id := id
    candidate_name := name
    job_description := jd
    resume_pdf_path := pdf
    status := InterviewStatus.INITIALIZING
    created_at := now
    last_activity := now
    rag_session_id := id }

/-- update_session: refresh last_activity before re-publishing the record. -/
def touch (s : InterviewSession) (now : Nat) : InterviewSession :=
  { s with last_activity := now }

/-- The loop body of set_interview_topics: one QuestionState per topic, with
resume_contexts[i] when resume_contexts is truthy and i is in range, else "". -/
def buildQuestionStates (contexts : Option (List String)) : Nat → List String → List QuestionState
  | _, [] => []
  | i, topic :: rest =>
      let ctx : String :=
        match contexts with
        | some cs => if h : i < cs.length then cs.get ⟨i, h⟩ else ""
        | none => ""
      { index := i, topic := topic, resume_context := ctx } ::
        buildQuestionStates contexts (i + 1) rest

/-- Session-level body of SessionManager.set_interview_topics. -/
def sessionSetInterviewTopics (s : InterviewSession) (topics : List String)
    (resume_contexts : Option (List String)) (now : Nat) : InterviewSession :=
  touch
    { s with
      interview_topics := topics
      questions := buildQuestionStates resume_contexts 0 topics
      status := InterviewStatus.READY } now

/-- Session-level body of SessionManager.set_current_question. -/
def sessionSetCurrentQuestion (s : InterviewSession) (question_text : String)
    (fu : Bool) (now : Nat) : Except SessionError InterviewSession :=
  match s.current_question with
  | none => Except.error SessionError.noCurrentQuestion
  | some q =>
      let q2 :=
        if fu then
          { q with
            follow_up_question := some question_text
            status := QuestionStatus.FOLLOW_UP_ASKED }
        else
          { q with
            primary_question := some question_text
            status := QuestionStatus.ASKED
            asked_at := some now }
      Except.ok (touch
        { s with
          questions := s.questions.set s.current_question_index q2
          status := InterviewStatus.AWAITING_RESPONSE } now)

/-- Session-level body of SessionManager.submit_response. -/
def sessionSubmitResponse (s : InterviewSession) (response : String)
    (fu : Bool) (now : Nat) : Except SessionError InterviewSession :=
  match s.current_question with
  | none => Except.error SessionError.noCurrentQuestion
  | some q =>
      let q2 :=
        if fu then
          { q with
            follow_up_response := some response
            status := QuestionStatus.COMPLETED
            answered_at := some now }
        else
          { q with
            primary_response := some response
            status := QuestionStatus.ANSWERED
            answered_at := some now }
      Except.ok (touch
        { s with
          questions := s.questions.set s.current_question_index q2
          pending_response := some response
          response_event_set := true
          status := InterviewStatus.IN_PROGRESS } now)

/-- Session-level body of SessionManager.advance_to_next_question; the Bool is
the returned has-more flag (False when the interview is complete). -/
def sessionAdvanceToNextQuestion (s : InterviewSession) (now : Nat) :
    InterviewSession × Bool :=
  let s1 :=
    match s.current_question with
    | some q =>
        if q.status = QuestionStatus.COMPLETED then
          let entry : TranscriptEntry :=
            { question_number := s.current_question_index + 1
              topic := q.topic
              question := q.primary_question.getD ""
              response := q.primary_response.getD ""
              follow_up_question := q.follow_up_question
              follow_up_response := q.follow_up_response
              timestamp := q.asked_at.getD now }
          { s with transcript_entries := s.transcript_entries ++ [entry] }
        else s
    | none => s
  if s1.current_question_index + 1 ≥ s1.questions.length then
    (touch { s1 with status := InterviewStatus.EVALUATING } now, false)
  else
    (touch
      { s1 with
        current_question_index := s1.current_question_index + 1
        status := InterviewStatus.IN_PROGRESS } now, true)

/-- Session-level body of SessionManager.complete_interview. -/
def sessionCompleteInterview (s : InterviewSession) (report : String)
    (scores : Option (List (String × String))) (now : Nat) : InterviewSession :=
  touch
    { s with
      evaluation_report := report
      scores := scores.getD []
      status := InterviewStatus.COMPLETED } now

/-- Session-level body of SessionManager.set_error. -/
def sessionSetError (s : InterviewSession) (msg : String) (now : Nat) :
    InterviewSession :=
  touch
    { s with
      status := InterviewStatus.ERROR
      evaluation_report := "Error: " ++ msg } now

/-- Association-list lookup, the model of Python dict access by key. -/
def assocFind {α : Type} : List (String × α) → String → Option α
  | [], _ => none
  | (k, v) :: rest, id => if k = id then some v else assocFind rest id

/-- Association-list assignment, the model of Python dict item assignment:
replace the existing binding for the key or append a new one. -/
def assocInsert {α : Type} : List (String × α) → String → α → List (String × α)
  | [], id, v => [(id, v)]
  | (k, w) :: rest, id, v =>
      if k = id then (id, v) :: rest else (k, w) :: assocInsert rest id v

/-- Association-list removal, the model of Python del dict item. -/
def assocErase {α : Type} : List (String × α) → String → List (String × α)
  | [], _ => []
  | (k, w) :: rest, id => if k = id then rest else (k, w) :: assocErase rest id

/-- The registry self.sessions of SessionManager. -/
abbrev SessionStore := List (String × InterviewSession)

/-- SessionManager.create_session: raise ValueError when the id is already
registered, else insert a fresh INITIALIZING record and return it. -/
def create_session (st : SessionStore) (id name jd : String)
    (pdf : Option String) (now : Nat) :
    Except SessionError (SessionStore × InterviewSession) :=
  if (assocFind st id).isSome then
    Except.error (SessionError.sessionAlreadyExists id)
  else
    let s := newInterviewSession id name jd pdf now
    Except.ok (assocInsert st id s, s)

/-- SessionManager.delete_session: remove the record, returning whether one
was removed. -/
def delete_session (st : SessionStore) (id : String) : SessionStore × Bool :=
  if (assocFind st id).isSome then (assocErase st id, true) else (st, false)

/-- SessionManager.set_interview_topics at store level: get_session_or_raise,
mutate, update_session. -/
def set_interview_topics (st : SessionStore) (id : String) (topics : List String)
    (resume_contexts : Option (List String)) (now : Nat) :
    Except SessionError SessionStore :=
  match assocFind st id with
  | none => Except.error (SessionError.sessionNotFound id)
  | some s =>
      Except.ok (assocInsert st id (sessionSetInterviewTopics s topics resume_contexts now))

/-- SessionManager.set_current_question at store level. -/
def set_current_question (st : SessionStore) (id : String) (question_text : String)
    (fu : Bool) (now : Nat) : Except SessionError SessionStore :=
  match assocFind st id with
  | none => Except.error (SessionError.sessionNotFound id)
  | some s =>
      match sessionSetCurrentQuestion s question_text fu now with
      | Except.error e => Except.error e
      | Except.ok s2 => Except.ok (assocInsert st id s2)

/-- SessionManager.submit_response at store level. -/
def submit_response (st : SessionStore) (id : String) (response : String)
    (fu : Bool) (now : Nat) : Except SessionError SessionStore :=
  match assocFind st id with
  | none => Except.error (SessionError.sessionNotFound id)
  | some s =>
      match sessionSubmitResponse s response fu now with
      | Except.error e => Except.error e
      | Except.ok s2 => Except.ok (assocInsert st id s2)

/-- SessionManager.advance_to_next_question at store level. -/
def advance_to_next_question (st : SessionStore) (id : String) (now : Nat) :
    Except SessionError (SessionStore × Bool) :=
  match assocFind st id with
  | none => Except.error (SessionError.sessionNotFound id)
  | some s =>
      let p := sessionAdvanceToNextQuestion s now
      Except.ok (assocInsert st id p.1, p.2)

/-- SessionManager.complete_interview at store level. -/
def complete_interview (st : SessionStore) (id : String) (report : String)
    (scores : Option (List (String × String))) (now : Nat) :
    Except SessionError SessionStore :=
  match assocFind st id with
  | none => Except.error (SessionError.sessionNotFound id)
  | some s => Except.ok (assocInsert st id (sessionCompleteInterview s report scores now))

/-- SessionManager.set_error at store level. -/
def set_error (st : SessionStore) (id : String) (msg : String) (now : Nat) :
    Except SessionError SessionStore :=
  match assocFind st id with
  | none => Except.error (SessionError.sessionNotFound id)
  | some s => Except.ok (assocInsert st id (sessionSetError s msg now))

/-- One store operation, for reasoning over arbitrary operation sequences. -/
inductive StoreOp where
  | createOp (id name jd : String) (pdf : Option String)
  | deleteOp (id : String)
  | setTopicsOp (id : String) (topics : List String) (contexts : Option (List String))
  | setQuestionOp (id : String) (text : String) (fu : Bool)
  | submitOp (id : String) (response : String) (fu : Bool)
  | advanceOp (id : String)
  | completeOp (id : String) (report : String) (scores : Option (List (String × String)))
  | errorOp (id : String) (msg : String)
  deriving DecidableEq

/-- Apply one store operation; a raised exception leaves the registry as it
was (every SessionManager method raises before any mutation). -/
def applyStoreOp (st : SessionStore) (op : StoreOp) (now : Nat) : SessionStore :=
  match op with
  | StoreOp.createOp id name jd pdf =>
      match create_session st id name jd pdf now with
      | Except.ok p => p.1
      | Except.error _ => st
  | StoreOp.deleteOp id => (delete_session st id).1
  | StoreOp.setTopicsOp id topics ctxs =>
      match set_interview_topics st id topics ctxs now with
      | Except.ok st2 => st2
      | Except.error _ => st
  | StoreOp.setQuestionOp id text fu =>
      match set_current_question st id text fu now with
      | Except.ok st2 => st2
      | Except.error _ => st
  | StoreOp.submitOp id response fu =>
      match submit_response st id response fu now with
      | Except.ok st2 => st2
      | Except.error _ => st
  | StoreOp.advanceOp id =>
      match advance_to_next_question st id now with
      | Except.ok p => p.1
      | Except.error _ => st
  | StoreOp.completeOp id report scores =>
      match complete_interview st id report scores now with
      | Except.ok st2 => st2
      | Except.error _ => st
  | StoreOp.errorOp id msg =>
      match set_error st id msg now with
      | Except.ok st2 => st2
      | Except.error _ => st

/-- Run a sequence of timestamped store operations from a starting registry. -/
def runStoreOps (st : SessionStore) : List (StoreOp × Nat) → SessionStore
  | [] => st
  | (op, now) :: rest => runStoreOps (applyStoreOp st op now) rest

/-- HTTPException outcomes of the response-submission route (routes.py,
POST /sessions/session_id/response). -/
inductive RouteError where
  | sessionNotFoundResponse (id : String)
  | notExpectingResponse (st : InterviewStatus)
  | noActiveQuestion
  | managerError (e : SessionError)
  deriving DecidableEq

/-- The route handler submit_response of routes.py: 404 on unknown id, 400
unless status is AWAITING_RESPONSE, 400 when no current question, else record
the single response (follow-up exactly when the question status is
FOLLOW_UP_ASKED) and advance.  The Bool result is the interview_complete flag
(negation of has_more); the background run_evaluation call it triggers is an
external collaborator and is outside the store model. -/
def route_submit_response (st : SessionStore) (id : String) (response : String)
    (now : Nat) : Except RouteError (SessionStore × Bool) :=
  match assocFind st id with
  | none => Except.error (RouteError.sessionNotFoundResponse id)
  | some s =>
      if s.status ≠ InterviewStatus.AWAITING_RESPONSE then
        Except.error (RouteError.notExpectingResponse s.status)
      else
        match s.current_question with
        | none => Except.error RouteError.noActiveQuestion
        | some q =>
            let fu := decide (q.status = QuestionStatus.FOLLOW_UP_ASKED)
            match submit_response st id response fu now with
            | Except.error e => Except.error (RouteError.managerError e)
            | Except.ok st2 =>
                match advance_to_next_question st2 id now with
                | Except.error e => Except.error (RouteError.managerError e)
                | Except.ok p => Except.ok (p.1, !p.2)

/-- The per-question flow driven by repeated calls of the response route on a
session that stays in the primary-question path (the route passes
is_follow_up = False because set_current_question is only ever called with
is_follow_up = False): each response is recorded as a primary response and the
session is advanced. -/
def runPrimaryFlow (now : Nat) : InterviewSession → List String →
    Except SessionError InterviewSession
  | s, [] => Except.ok s
  | s, r :: rest =>
      match sessionSubmitResponse s r false now with
      | Except.error e => Except.error e
      | Except.ok s1 => runPrimaryFlow now (sessionAdvanceToNextQuestion s1 now).1 rest

/-- One stored chunk with its metadata, as built by process_resume of
rag_service.py. -/
structure ChunkDoc where
  text : String
  session_id : String
  source : String
  total_chunks : Nat
  chunk_id : Nat
  deriving DecidableEq

/-- CHUNKING_CONFIG chunk_size of rag_config.py. -/
def chunkSizeConfig : Nat := 1000

/-- CHUNKING_CONFIG chunk_overlap of rag_config.py. -/
def chunkOverlapConfig : Nat := 200

/-- RETRIEVAL_CONFIG default_k of rag_config.py. -/
def defaultKConfig : Int := 4

/-- RETRIEVAL_CONFIG max_k of rag_config.py. -/
def maxKConfig : Int := 10

/-- Window start advance of the chunker: chunk_size minus chunk_overlap. -/
def chunkStep : Nat := chunkSizeConfig - chunkOverlapConfig

/-- Modelled from the spec: the DocumentChunker collaborator (the source
delegates to the external langchain RecursiveCharacterTextSplitter).  Per the
spec it splits raw extracted text into overlapping fixed-size windows of the
configured size W with overlap O, O < W; blank input yields no chunks.  The
first argument is recursion fuel, always sufficient since every step consumes
at least one character. -/
def chunkWindowsFuel : Nat → List Char → List (List Char)
  | 0, _ => []
  | _, [] => []
  | fuel + 1, c :: rest =>
      if (c :: rest).length ≤ chunkSizeConfig then [c :: rest]
      else (c :: rest).take chunkSizeConfig ::
        chunkWindowsFuel fuel ((c :: rest).drop chunkStep)

/-- split_text over a string: windows of its characters. -/
def splitText (s : String) : List String :=
  (chunkWindowsFuel s.data.length s.data).map (fun cs => String.mk cs)

/-- Single-character replacement used by the collection-name mapping:
a hyphen becomes an underscore, all other characters pass through. -/
def replaceHyphen (c : Char) : Char := if c = '-' then '_' else c

/-- get_collection_name of rag_service.py at character-list level:
the prefix resume_ followed by the id with hyphens replaced by underscores
(str.replace over one-character arguments is a character-wise map). -/
def collectionNameChars (sid : List Char) : List Char :=
  "resume_".data ++ sid.map replaceHyphen

/-- get_collection_name of rag_service.py over strings. -/
def get_collection_name (sid : String) : String :=
  String.mk (collectionNameChars sid.data)

/-- State of ResumeRAGService: the persisted client maps collection names to
their stored chunks; vectorstore is the name of the collection the loaded
Chroma handle points at (None until a session is processed or loaded);
current_session_id mirrors the source attribute. -/
structure RAGState where
  collections : List (String × List ChunkDoc) := []
  vectorstore : Option String := none
  current_session_id : Option String := none
  deriving DecidableEq

/-- The fresh service state built by the ResumeRAGService constructor. -/
def ragInit : RAGState := {}

/-- The ValueError raised by retrieve_context when self.vectorstore is None. -/
inductive RAGError where
  | noVectorStore
  deriving DecidableEq

/-- The metadata loop of process_resume: one ChunkDoc per chunk text, carrying
session id, source resume, total chunk count and running chunk_id. -/
def mkChunkDocs (sid : String) (total : Nat) : Nat → List String → List ChunkDoc
  | _, [] => []
  | i, t :: rest =>
      { text := t
        session_id := sid
        source := "resume"
        total_chunks := total
        chunk_id := i } :: mkChunkDocs sid total (i + 1) rest

/-- process_resume of rag_service.py: split the text, build the per-chunk
metadata, and publish the chunk set as the session collection
(Chroma.from_texts creates the named collection, replacing prior content for
the same name); returns the chunk count.  There is no blank-text check. -/
def process_resume (st : RAGState) (resume_content : String) (sid : String) :
    RAGState × Nat :=
  let chunks := splitText resume_content
  let name := get_collection_name sid
  let docs := mkChunkDocs sid chunks.length 0 chunks
  ({ collections := assocInsert st.collections name docs
     vectorstore := some name
     current_session_id := some sid }, chunks.length)

/-- The private load_session of rag_service.py: point the Chroma handle at the
collection named for the session.  The Chroma constructor get-or-creates the
collection, so loading never fails, even for a name never ingested; a name
absent from the client is read as an empty collection. -/
def load_session (st : RAGState) (sid : String) : RAGState :=
  { st with
    vectorstore := some (get_collection_name sid)
    current_session_id := some sid }

/-- The effective k of retrieve_context line 175:
min(k or RETRIEVAL_CONFIG default_k, RETRIEVAL_CONFIG max_k); Python or
replaces only the falsy values None and 0 by the default. -/
def retrievalEffectiveK (k : Option Int) : Int :=
  min (match k with
       | none => defaultKConfig
       | some v => if v = 0 then defaultKConfig else v) maxKConfig

/-- Modelled from the spec: the VectorIndex nearest-k query (Chroma
similarity_search) is an external collaborator; the model returns the first k
stored chunks of the searched collection.  The claims settled here depend only
on which collection is searched and on a query over a collection holding no
chunks returning no results, not on the similarity ordering. -/
def similaritySearch (docs : List ChunkDoc) (_query : String) (k : Int) :
    List ChunkDoc :=
  docs.take k.toNat

/-- retrieve_context of rag_service.py: compute the effective k, load the
named session when one is given (truthy) and differs from the current one,
raise ValueError only when no vectorstore handle is loaded, else search the
loaded collection and return the chunk texts. -/
def retrieve_context (st : RAGState) (query : String) (k : Option Int)
    (sid : Option String) : Except RAGError (RAGState × List String) :=
  let k2 := retrievalEffectiveK k
  let st2 :=
    match sid with
    | some s => if s ≠ "" ∧ some s ≠ st.current_session_id then load_session st s else st
    | none => st
  match st2.vectorstore with
  | none => Except.error RAGError.noVectorStore
  | some name =>
      let docs := (assocFind st2.collections name).getD []
      Except.ok (st2, (similaritySearch docs query k2).map ChunkDoc.text)

/-- The length-preservation invariant of claim C1: one question state per
topic. -/
def questionsMatchTopics (s : InterviewSession) : Prop :=
  s.questions.length = s.interview_topics.length

/-- Every record in the registry satisfies the length invariant. -/
def storeQuestionsInv (st : SessionStore) : Prop :=
  ∀ p ∈ st, questionsMatchTopics p.2

/-- Character map inverting replaceHyphen on underscore-free inputs; used
only to prove the restricted injectivity of the collection-name mapping. -/
def replaceUnderscore (c : Char) : Char := if c = '_' then '-' else c

/-- Placeholder session used only as the Option.getD default in concrete
witness computations. -/
def fallbackSession : InterviewSession := newInterviewSession "" "" "" none 0

/-- Placeholder question state used only as the Option.getD default in
concrete witness computations. -/
def fallbackQuestion : QuestionState :=
  { index := 0, topic := "", resume_context := "" }

/-- Concrete operation run: create a session, publish two topics, ask and
answer the first question, advance once. -/
def demoOps : List (StoreOp × Nat) :=
  [(StoreOp.createOp "s1" "Ada" "backend role description" none, 1),
   (StoreOp.setTopicsOp "s1" ["python", "sql"] (some ["api work"]), 2),
   (StoreOp.setQuestionOp "s1" "Describe a Python project." false, 3),
   (StoreOp.submitOp "s1" "I built an API." false, 4),
   (StoreOp.advanceOp "s1", 5)]

/-- Registry reached by demoOps. -/
def demoStore : SessionStore := runStoreOps [] demoOps

/-- The session record of demoStore. -/
def demoSession : InterviewSession := (assocFind demoStore "s1").getD fallbackSession

/-- Concrete run stopping at READY with one topic. -/
def readyOps : List (StoreOp × Nat) :=
  [(StoreOp.createOp "s1" "Ada" "backend role description" none, 1),
   (StoreOp.setTopicsOp "s1" ["python"] none, 2)]

/-- Registry reached by readyOps: the session sits in READY. -/
def readyStore : SessionStore := runStoreOps [] readyOps

/-- The READY session record of readyStore. -/
def readySession : InterviewSession := (assocFind readyStore "s1").getD fallbackSession

/-- Concrete run carrying readyOps on to AWAITING_RESPONSE on the only
question. -/
def awaitingOps : List (StoreOp × Nat) :=
  readyOps ++ [(StoreOp.setQuestionOp "s1" "Describe a Python project." false, 3)]

/-- Registry reached by awaitingOps. -/
def awaitingStore : SessionStore := runStoreOps [] awaitingOps

/-- The AWAITING_RESPONSE session record of awaitingStore. -/
def awaitingSession : InterviewSession :=
  (assocFind awaitingStore "s1").getD fallbackSession

/-- The current question of awaitingSession. -/
def awaitingQuestion : QuestionState :=
  awaitingSession.current_question.getD fallbackQuestion

/-- The session state right after a primary response is recorded on
awaitingSession. -/
def answeredSession : InterviewSession :=
  (sessionSubmitResponse awaitingSession "I built an API." false 9).toOption.getD
    fallbackSession

/-- Concrete run producing a COMPLETED session. -/
def completedOps : List (StoreOp × Nat) :=
  [(StoreOp.createOp "s2" "Grace" "data role description" none, 1),
   (StoreOp.completeOp "s2" "Strong candidate." none, 2)]

/-- Registry reached by completedOps. -/
def completedStore : SessionStore := runStoreOps [] completedOps

/-- The COMPLETED session record of completedStore. -/
def completedSession : InterviewSession :=
  (assocFind completedStore "s2").getD fallbackSession

/-- completedStore after set_interview_topics runs on the COMPLETED session. -/
def reopenedStore : SessionStore :=
  applyStoreOp completedStore (StoreOp.setTopicsOp "s2" ["sql"] none) 3

theorem assocFind_insert {α : Type} (st : List (String × α)) (id id2 : String) (v : α) :
    assocFind (assocInsert st id v) id2 =
      if id = id2 then some v else assocFind st id2 := by
  induction st with
  | nil => simp [assocInsert, assocFind]
  | cons kv rest ih =>
      obtain ⟨k, w⟩ := kv
      by_cases hk : k = id
      · subst hk
        by_cases h2 : k = id2 <;> simp [assocInsert, assocFind, h2]
      · by_cases h2 : k = id2
        · subst h2
          have hne : ¬ (id = k) := fun h => hk h.symm
          simp [assocInsert, assocFind, hk, hne]
        · simp [assocInsert, assocFind, hk, h2, ih]

theorem mem_assocInsert {α : Type} {st : List (String × α)} {id : String} {v : α}
    {p : String × α} (h : p ∈ assocInsert st id v) : p = (id, v) ∨ p ∈ st := by
  induction st with
  | nil => simpa [assocInsert] using h
  | cons kv rest ih =>
      obtain ⟨k, w⟩ := kv
      by_cases hk : k = id
      · subst hk
        simp only [assocInsert, if_pos rfl] at h
        rcases List.mem_cons.mp h with h1 | h1
        · exact Or.inl h1
        · exact Or.inr (List.mem_cons_of_mem _ h1)
      · simp only [assocInsert, if_neg hk] at h
        rcases List.mem_cons.mp h with h1 | h1
        · exact Or.inr (h1 ▸ List.mem_cons_self _ _)
        · rcases ih h1 with h2 | h2
          · exact Or.inl h2
          · exact Or.inr (List.mem_cons_of_mem _ h2)

theorem mem_assocErase {α : Type} {st : List (String × α)} {id : String}
    {p : String × α} (h : p ∈ assocErase st id) : p ∈ st := by
  induction st with
  | nil => simpa [assocErase] using h
  | cons kv rest ih =>
      obtain ⟨k, w⟩ := kv
      by_cases hk : k = id
      · simp only [assocErase, if_pos hk] at h
        exact List.mem_cons_of_mem _ h
      · simp only [assocErase, if_neg hk] at h
        rcases List.mem_cons.mp h with h1 | h1
        · exact h1 ▸ List.mem_cons_self _ _
        · exact List.mem_cons_of_mem _ (ih h1)

theorem assocFind_mem {α : Type} {st : List (String × α)} {id : String} {v : α}
    (h : assocFind st id = some v) : (id, v) ∈ st := by
  induction st with
  | nil => simp [assocFind] at h
  | cons kv rest ih =>
      obtain ⟨k, w⟩ := kv
      by_cases hk : k = id
      · subst hk
        simp [assocFind] at h
        subst h
        exact List.mem_cons_self _ _
      · simp only [assocFind, if_neg hk] at h
        exact List.mem_cons_of_mem _ (ih h)

theorem buildQuestionStates_length (ctxs : Option (List String)) :
    ∀ (i : Nat) (topics : List String),
      (buildQuestionStates ctxs i topics).length = topics.length := by
  intro i topics
  induction topics generalizing i with
  | nil => rfl
  | cons t rest ih => simp [buildQuestionStates, ih]

theorem sessionSetInterviewTopics_fields (s : InterviewSession) (topics : List String)
    (ctxs : Option (List String)) (now : Nat) :
    (sessionSetInterviewTopics s topics ctxs now).status = InterviewStatus.READY ∧
    (sessionSetInterviewTopics s topics ctxs now).interview_topics = topics ∧
    (sessionSetInterviewTopics s topics ctxs now).questions.length = topics.length := by
  refine ⟨rfl, rfl, ?_⟩
  simp [sessionSetInterviewTopics, touch, buildQuestionStates_length]

theorem sessionSubmitResponse_primary (s : InterviewSession) (q : QuestionState)
    (r : String) (now : Nat) (hq : s.current_question = some q) :
    sessionSubmitResponse s r false now = Except.ok
      (touch { s with
        questions := s.questions.set s.current_question_index
          { q with
            primary_response := some r
            status := QuestionStatus.ANSWERED
            answered_at := some now }
        pending_response := some r
        response_event_set := true
        status := InterviewStatus.IN_PROGRESS } now) := by
  simp [sessionSubmitResponse, hq]

theorem sessionAdvance_last (s : InterviewSession) (q : QuestionState) (now : Nat)
    (hq : s.current_question = some q) (hnc : q.status ≠ QuestionStatus.COMPLETED)
    (hlast : s.current_question_index + 1 ≥ s.questions.length) :
    sessionAdvanceToNextQuestion s now =
      (touch { s with status := InterviewStatus.EVALUATING } now, false) := by
  simp [sessionAdvanceToNextQuestion, hq, hnc, hlast]

theorem sessionAdvance_mid (s : InterviewSession) (q : QuestionState) (now : Nat)
    (hq : s.current_question = some q) (hnc : q.status ≠ QuestionStatus.COMPLETED)
    (hmid : s.current_question_index + 1 < s.questions.length) :
    sessionAdvanceToNextQuestion s now =
      (touch { s with
        current_question_index := s.current_question_index + 1
        status := InterviewStatus.IN_PROGRESS } now, true) := by
  have h2 : ¬ (s.current_question_index + 1 ≥ s.questions.length) := by omega
  simp [sessionAdvanceToNextQuestion, hq, hnc, h2]

theorem sessionAdvance_transcript (s : InterviewSession) (now : Nat)
    (h : s.current_question.map QuestionState.status ≠ some QuestionStatus.COMPLETED) :
    ((sessionAdvanceToNextQuestion s now).1).transcript_entries = s.transcript_entries := by
  cases hc : s.current_question with
  | none =>
      simp only [sessionAdvanceToNextQuestion, hc]
      split <;> rfl
  | some q =>
      rw [hc] at h
      have hnc : q.status ≠ QuestionStatus.COMPLETED := by
        intro he
        exact h (by simp [he])
      simp only [sessionAdvanceToNextQuestion, hc, if_neg hnc]
      split <;> rfl

theorem sessionSetCurrentQuestion_preserves (s s2 : InterviewSession) (t : String)
    (fu : Bool) (now : Nat)
    (hm : sessionSetCurrentQuestion s t fu now = Except.ok s2)
    (h : questionsMatchTopics s) : questionsMatchTopics s2 := by
  cases hq : s.current_question with
  | none => simp [sessionSetCurrentQuestion, hq] at hm
  | some q =>
      simp only [sessionSetCurrentQuestion, hq, Except.ok.injEq] at hm
      subst hm
      simpa [questionsMatchTopics, touch, List.length_set] using h

theorem sessionSubmitResponse_preserves (s s2 : InterviewSession) (r : String)
    (fu : Bool) (now : Nat)
    (hm : sessionSubmitResponse s r fu now = Except.ok s2)
    (h : questionsMatchTopics s) : questionsMatchTopics s2 := by
  cases hq : s.current_question with
  | none => simp [sessionSubmitResponse, hq] at hm
  | some q =>
      simp only [sessionSubmitResponse, hq, Except.ok.injEq] at hm
      subst hm
      simpa [questionsMatchTopics, touch, List.length_set] using h

theorem sessionAdvance_preserves (s : InterviewSession) (now : Nat)
    (h : questionsMatchTopics s) :
    questionsMatchTopics (sessionAdvanceToNextQuestion s now).1 := by
  unfold questionsMatchTopics at *
  simp only [sessionAdvanceToNextQuestion]
  cases hc : s.current_question with
  | none => split <;> simpa [touch] using h
  | some q =>
      by_cases hs : q.status = QuestionStatus.COMPLETED <;>
        simp only [if_pos, if_neg, hs, ite_true, ite_false] <;>
        split <;> simpa [touch] using h

theorem applyStoreOp_inv (st : SessionStore) (op : StoreOp) (now : Nat)
    (h : storeQuestionsInv st) : storeQuestionsInv (applyStoreOp st op now) := by
  have hins : ∀ (id : String) (s2 : InterviewSession), questionsMatchTopics s2 →
      storeQuestionsInv (assocInsert st id s2) := by
    intro id s2 h2 p hp
    rcases mem_assocInsert hp with h3 | h3
    · rw [h3]; exact h2
    · exact h _ h3
  cases op with
  | createOp id name jd pdf =>
      by_cases hf : (assocFind st id).isSome
      · simpa [applyStoreOp, create_session, hf] using h
      · simp only [applyStoreOp, create_session, hf, Bool.false_eq_true, if_false]
        exact hins id _ rfl
  | deleteOp id =>
      by_cases hf : (assocFind st id).isSome
      · simp only [applyStoreOp, delete_session, hf, if_true]
        intro p hp
        exact h _ (mem_assocErase hp)
      · simpa [applyStoreOp, delete_session, hf] using h
  | setTopicsOp id topics ctxs =>
      cases hf : assocFind st id with
      | none => simpa [applyStoreOp, set_interview_topics, hf] using h
      | some s =>
          simp only [applyStoreOp, set_interview_topics, hf]
          apply hins
          unfold questionsMatchTopics
          rw [(sessionSetInterviewTopics_fields s topics ctxs now).2.2,
              (sessionSetInterviewTopics_fields s topics ctxs now).2.1]
  | setQuestionOp id text fu =>
      cases hf : assocFind st id with
      | none => simpa [applyStoreOp, set_current_question, hf] using h
      | some s =>
          cases hm : sessionSetCurrentQuestion s text fu now with
          | error e => simpa [applyStoreOp, set_current_question, hf, hm] using h
          | ok s2 =>
              simp only [applyStoreOp, set_current_question, hf, hm]
              exact hins id s2
                (sessionSetCurrentQuestion_preserves s s2 text fu now hm
                  (h _ (assocFind_mem hf)))
  | submitOp id r fu =>
      cases hf : assocFind st id with
      | none => simpa [applyStoreOp, submit_response, hf] using h
      | some s =>
          cases hm : sessionSubmitResponse s r fu now with
          | error e => simpa [applyStoreOp, submit_response, hf, hm] using h
          | ok s2 =>
              simp only [applyStoreOp, submit_response, hf, hm]
              exact hins id s2
                (sessionSubmitResponse_preserves s s2 r fu now hm
                  (h _ (assocFind_mem hf)))
  | advanceOp id =>
      cases hf : assocFind st id with
      | none => simpa [applyStoreOp, advance_to_next_question, hf] using h
      | some s =>
          simp only [applyStoreOp, advance_to_next_question, hf]
          exact hins id _ (sessionAdvance_preserves s now (h _ (assocFind_mem hf)))
  | completeOp id report scores =>
      cases hf : assocFind st id with
      | none => simpa [applyStoreOp, complete_interview, hf] using h
      | some s =>
          simp only [applyStoreOp, complete_interview, hf]
          apply hins
          have := h _ (assocFind_mem hf)
          simpa [questionsMatchTopics, sessionCompleteInterview, touch] using this
  | errorOp id msg =>
      cases hf : assocFind st id with
      | none => simpa [applyStoreOp, set_error, hf] using h
      | some s =>
          simp only [applyStoreOp, set_error, hf]
          apply hins
          have := h _ (assocFind_mem hf)
          simpa [questionsMatchTopics, sessionSetError, touch] using this

theorem runStoreOps_inv (ops : List (StoreOp × Nat)) :
    ∀ st : SessionStore, storeQuestionsInv st → storeQuestionsInv (runStoreOps st ops) := by
  induction ops with
  | nil => intro st h; exact h
  | cons p rest ih =>
      intro st h
      obtain ⟨op, now⟩ := p
      exact ih _ (applyStoreOp_inv st op now h)

theorem runPrimaryFlow_spec :
    ∀ (rs : List String) (s : InterviewSession) (now : Nat),
      s.current_question_index + rs.length = s.questions.length →
      1 ≤ rs.length →
      ∃ s2, runPrimaryFlow now s rs = Except.ok s2 ∧
        s2.status = InterviewStatus.EVALUATING ∧
        s2.transcript_entries = s.transcript_entries := by
  intro rs
  induction rs with
  | nil =>
      intro s now hlen hpos
      exact absurd hpos (by simp)
  | cons r rest ih =>
      intro s now hlen hpos
      have hidx : s.current_question_index < s.questions.length := by
        simp only [List.length_cons] at hlen
        omega
      set q := s.questions.get ⟨s.current_question_index, hidx⟩ with hqdef
      have hq : s.current_question = some q := List.get?_eq_get hidx
      have hsub := sessionSubmitResponse_primary s q r now hq
      set q2 : QuestionState :=
        { q with
          primary_response := some r
          status := QuestionStatus.ANSWERED
          answered_at := some now } with hq2def
      set s1 : InterviewSession := touch
        { s with
          questions := s.questions.set s.current_question_index q2
          pending_response := some r
          response_event_set := true
          status := InterviewStatus.IN_PROGRESS } now with hs1def
      have h1q : s1.current_question = some q2 := by
        show (s.questions.set s.current_question_index q2).get? s.current_question_index =
          some q2
        exact List.get?_set_eq_of_lt _ hidx
      have h1nc : q2.status ≠ QuestionStatus.COMPLETED := by
        simp [hq2def]
      have h1len : s1.questions.length = s.questions.length := by
        simp [hs1def, touch, List.length_set]
      have h1idx : s1.current_question_index = s.current_question_index := rfl
      have h1tr : s1.transcript_entries = s.transcript_entries := rfl
      cases rest with
      | nil =>
          have hlast : s1.current_question_index + 1 ≥ s1.questions.length := by
            rw [h1idx, h1len]
            simp only [List.length_cons, List.length_nil] at hlen
            omega
          have hadv := sessionAdvance_last s1 q2 now h1q h1nc hlast
          refine ⟨touch { s1 with status := InterviewStatus.EVALUATING } now, ?_, rfl, ?_⟩
          · simp only [runPrimaryFlow, hsub, hadv]
          · show s1.transcript_entries = s.transcript_entries
            exact h1tr
      | cons r2 rest2 =>
          have hmid : s1.current_question_index + 1 < s1.questions.length := by
            rw [h1idx, h1len]
            simp only [List.length_cons] at hlen
            omega
          have hadv := sessionAdvance_mid s1 q2 now h1q h1nc hmid
          have hcond : (touch
              { s1 with
                current_question_index := s1.current_question_index + 1
                status := InterviewStatus.IN_PROGRESS } now).current_question_index +
              (r2 :: rest2).length =
              (touch
              { s1 with
                current_question_index := s1.current_question_index + 1
                status := InterviewStatus.IN_PROGRESS } now).questions.length := by
            show s1.current_question_index + 1 + (r2 :: rest2).length = s1.questions.length
            rw [h1idx, h1len]
            simp only [List.length_cons] at hlen ⊢
            omega
          obtain ⟨s2, hflow, hstat, htr⟩ :=
            ih (touch
              { s1 with
                current_question_index := s1.current_question_index + 1
                status := InterviewStatus.IN_PROGRESS } now) now hcond (by simp)
          refine ⟨s2, ?_, hstat, ?_⟩
          · simp only [runPrimaryFlow, hsub, hadv]
            exact hflow
          · rw [htr]
            exact h1tr

/-- C1: in every registry reachable from the empty one by any sequence of
store operations, every session satisfies len(questions) = len(topics); in
particular the invariant holds from the first moment set_interview_topics
makes a session READY and across every subsequent operation, and the
zero-topic call still yields READY with zero questions. -/
theorem C1_questions_match_topics :
    (∀ (ops : List (StoreOp × Nat)) (id : String) (s : InterviewSession),
        assocFind (runStoreOps [] ops) id = some s →
        s.questions.length = s.interview_topics.length) ∧
    (∀ (s : InterviewSession) (ctxs : Option (List String)) (now : Nat),
        (sessionSetInterviewTopics s [] ctxs now).status = InterviewStatus.READY ∧
        (sessionSetInterviewTopics s [] ctxs now).questions.length = 0) := by
  constructor
  · intro ops id s hfind
    have hinv : storeQuestionsInv (runStoreOps [] ops) :=
      runStoreOps_inv ops [] (by intro p hp; cases hp)
    exact hinv _ (assocFind_mem hfind)
  · intro s ctxs now
    exact ⟨(sessionSetInterviewTopics_fields s [] ctxs now).1,
      (sessionSetInterviewTopics_fields s [] ctxs now).2.2⟩

/-- Witness for C1 at the concrete demoOps run and a concrete zero-topic
call. -/
theorem C1_questions_match_topics_witness :
    assocFind demoStore "s1" = some demoSession ∧
    demoSession.questions.length = demoSession.interview_topics.length ∧
    (sessionSetInterviewTopics fallbackSession [] none 7).status =
      InterviewStatus.READY :=
  ⟨rfl, C1_questions_match_topics.1 demoOps "s1" demoSession rfl,
    (C1_questions_match_topics.2 fallbackSession none 7).1⟩

/-- C3 counterexample: set_interview_topics performs no status precondition
check.  Run on a COMPLETED session it succeeds (no InvalidState failure) and
moves the session to READY, contradicting the claim that it fails whenever
the status is not INITIALIZING. -/
theorem C3_counterexample :
    completedSession.status = InterviewStatus.COMPLETED ∧
    set_interview_topics completedStore "s2" ["sql"] none 3 =
      Except.ok reopenedStore ∧
    (assocFind reopenedStore "s2").map InterviewSession.status =
      some InterviewStatus.READY :=
  ⟨rfl, rfl, rfl⟩

/-- C3 amended: set_interview_topics checks no status precondition — for any
existing session, whatever its status, it replaces the topic list, rebuilds
the question-state list with one entry per topic, and transitions the session
to READY; it fails only with the not-found error when the id is absent. -/
theorem C3_set_topics_amended :
    (∀ (st : SessionStore) (id : String) (topics : List String)
        (ctxs : Option (List String)) (now : Nat),
        assocFind st id = none →
        set_interview_topics st id topics ctxs now =
          Except.error (SessionError.sessionNotFound id)) ∧
    (∀ (st : SessionStore) (id : String) (topics : List String)
        (ctxs : Option (List String)) (now : Nat) (s : InterviewSession),
        assocFind st id = some s →
        set_interview_topics st id topics ctxs now =
          Except.ok (assocInsert st id (sessionSetInterviewTopics s topics ctxs now)) ∧
        (sessionSetInterviewTopics s topics ctxs now).status = InterviewStatus.READY ∧
        (sessionSetInterviewTopics s topics ctxs now).interview_topics = topics ∧
        (sessionSetInterviewTopics s topics ctxs now).questions.length = topics.length) := by
  constructor
  · intro st id topics ctxs now h
    simp [set_interview_topics, h]
  · intro st id topics ctxs now s h
    exact ⟨by simp [set_interview_topics, h],
      (sessionSetInterviewTopics_fields s topics ctxs now).1,
      (sessionSetInterviewTopics_fields s topics ctxs now).2.1,
      (sessionSetInterviewTopics_fields s topics ctxs now).2.2⟩

/-- Witness for the amended C3 at a concrete absent id and at the concrete
COMPLETED session. -/
theorem C3_set_topics_witness :
    set_interview_topics [] "nope" ["t"] none 1 =
      Except.error (SessionError.sessionNotFound "nope") ∧
    (sessionSetInterviewTopics completedSession ["sql"] none 3).status =
      InterviewStatus.READY :=
  ⟨C3_set_topics_amended.1 [] "nope" ["t"] none 1 rfl,
    (C3_set_topics_amended.2 completedStore "s2" ["sql"] none 3 completedSession rfl).2.1⟩

/-- C4 counterexample: a store operation moves a session backward — the
session of completedStore has status COMPLETED, and after set_interview_topics
runs on it the status is READY again. -/
theorem C4_counterexample :
    (assocFind completedStore "s2").map InterviewSession.status =
      some InterviewStatus.COMPLETED ∧
    (assocFind reopenedStore "s2").map InterviewSession.status =
      some InterviewStatus.READY :=
  ⟨rfl, rfl⟩

/-- C4 amended: store operations do not guard the current status; each writes
its fixed target status, so backward movement is possible — in particular
set_interview_topics moves even a COMPLETED session back to READY. -/
theorem C4_no_monotonicity_amended :
    ∀ (s : InterviewSession) (topics : List String) (ctxs : Option (List String))
      (now : Nat),
      s.status = InterviewStatus.COMPLETED →
      (sessionSetInterviewTopics s topics ctxs now).status = InterviewStatus.READY := by
  intro s topics ctxs now _
  exact (sessionSetInterviewTopics_fields s topics ctxs now).1

/-- Witness for the amended C4 at the concrete COMPLETED session. -/
theorem C4_no_monotonicity_witness :
    completedSession.status = InterviewStatus.COMPLETED ∧
    (sessionSetInterviewTopics completedSession ["ml"] none 4).status =
      InterviewStatus.READY :=
  ⟨rfl, C4_no_monotonicity_amended completedSession ["ml"] none 4 rfl⟩

/-- C5: create_session fails with the already-exists error exactly when the
id is registered, leaving the registry unchanged on that path; otherwise it
inserts a fresh INITIALIZING record and returns it, and a second create with
the same id then fails — of two creates with one id, exactly one succeeds. -/
theorem C5_create_session :
    ∀ (st : SessionStore) (id name jd : String) (pdf : Option String) (now : Nat),
      ((assocFind st id).isSome →
          create_session st id name jd pdf now =
            Except.error (SessionError.sessionAlreadyExists id) ∧
          applyStoreOp st (StoreOp.createOp id name jd pdf) now = st) ∧
      (assocFind st id = none →
          create_session st id name jd pdf now =
            Except.ok (assocInsert st id (newInterviewSession id name jd pdf now),
              newInterviewSession id name jd pdf now) ∧
          (newInterviewSession id name jd pdf now).status =
            InterviewStatus.INITIALIZING ∧
          create_session (assocInsert st id (newInterviewSession id name jd pdf now))
              id name jd pdf now =
            Except.error (SessionError.sessionAlreadyExists id)) := by
  intro st id name jd pdf now
  constructor
  · intro hf
    exact ⟨by simp [create_session, hf], by simp [applyStoreOp, create_session, hf]⟩
  · intro hf
    have hf2 : ¬ (assocFind st id).isSome = true := by simp [hf]
    refine ⟨by simp [create_session, hf2], rfl, ?_⟩
    have hfound : assocFind (assocInsert st id (newInterviewSession id name jd pdf now))
        id = some (newInterviewSession id name jd pdf now) := by
      rw [assocFind_insert]
      simp
    simp [create_session, hfound]

/-- Witness for C5: a create on the empty registry succeeds in INITIALIZING,
and a create on demoStore for the taken id fails and leaves the registry
unchanged. -/
theorem C5_create_session_witness :
    create_session [] "s9" "Ada" "backend role description" none 1 =
      Except.ok ([("s9", newInterviewSession "s9" "Ada" "backend role description" none 1)],
        newInterviewSession "s9" "Ada" "backend role description" none 1) ∧
    (newInterviewSession "s9" "Ada" "backend role description" none 1).status =
      InterviewStatus.INITIALIZING ∧
    create_session demoStore "s1" "Eve" "other role description" none 9 =
      Except.error (SessionError.sessionAlreadyExists "s1") ∧
    applyStoreOp demoStore (StoreOp.createOp "s1" "Eve" "other role description" none) 9 =
      demoStore :=
  ⟨((C5_create_session [] "s9" "Ada" "backend role description" none 1).2 rfl).1,
    ((C5_create_session [] "s9" "Ada" "backend role description" none 1).2 rfl).2.1,
    ((C5_create_session demoStore "s1" "Eve" "other role description" none 9).1 rfl).1,
    ((C5_create_session demoStore "s1" "Eve" "other role description" none 9).1 rfl).2⟩

/-- C7 counterexample: ingesting blank text does not fail — there is no
EmptyDocument error anywhere; process_resume on the empty string still
creates a (zero-chunk) collection for the session and reports chunk count 0,
both of which the claim says must not happen. -/
theorem C7_counterexample :
    splitText "" = [] ∧
    process_resume ragInit "" "sess1" =
      ({ collections := [(get_collection_name "sess1", [])]
         vectorstore := some (get_collection_name "sess1")
         current_session_id := some "sess1" }, 0) :=
  ⟨rfl, rfl⟩

/-- C7 amended: process_resume performs no blank-text check and has no
failure path — blank extracted text splits into zero chunks, an empty
collection is still created (or the prior one replaced) under the collection
name of the session, and chunk count 0 is returned. -/
theorem C7_blank_ingest_amended :
    ∀ (st : RAGState) (sid : String),
      process_resume st "" sid =
        ({ collections := assocInsert st.collections (get_collection_name sid) []
           vectorstore := some (get_collection_name sid)
           current_session_id := some sid }, 0) := by
  intro st sid
  rfl

/-- C8 counterexample: the effective k of retrieve_context for requested
k = -3 is -3, which is not clamped up to 1, refuting the claim that the
effective k always lies in the range from 1 to max_k. -/
theorem C8_counterexample :
    retrievalEffectiveK (some (-3)) = -3 ∧
    ¬ (1 ≤ retrievalEffectiveK (some (-3))) := by
  constructor
  · rfl
  · decide

/-- C8 amended: the effective k never exceeds max_k = 10, and an absent or
zero request falls back to default_k = 4; the lower bound 1 is not enforced —
the only requests whose effective k is below 1 are negative ones, which pass
through unclamped. -/
theorem C8_effective_k_amended :
    ∀ v : Int,
      retrievalEffectiveK none = defaultKConfig ∧
      retrievalEffectiveK (some 0) = defaultKConfig ∧
      retrievalEffectiveK (some v) ≤ maxKConfig ∧
      (retrievalEffectiveK (some v) < 1 → v < 0) := by
  intro v
  refine ⟨rfl, rfl, ?_, ?_⟩
  · exact min_le_right _ _
  · intro h
    by_cases hv : v = 0
    · subst hv
      exact absurd h (by decide)
    · have he : retrievalEffectiveK (some v) = min v 10 := by
        unfold retrievalEffectiveK defaultKConfig maxKConfig
        simp [hv]
      rw [he] at h
      rcases min_cases v (10 : Int) with ⟨he2, _⟩ | ⟨he2, _⟩ <;> rw [he2] at h <;> omega

/-- Witness for the amended C8 at the concrete request k = -3. -/
theorem C8_effective_k_witness :
    retrievalEffectiveK none = defaultKConfig ∧
    retrievalEffectiveK (some 0) = defaultKConfig ∧
    retrievalEffectiveK (some (-3)) ≤ maxKConfig ∧
    (-3 : Int) < 0 :=
  ⟨(C8_effective_k_amended (-3)).1, (C8_effective_k_amended (-3)).2.1,
    (C8_effective_k_amended (-3)).2.2.1,
    (C8_effective_k_amended (-3)).2.2.2 (by decide)⟩

/-- C9 counterexample: the session-to-collection-name mapping is not
collision-free — the distinct ids a-b and a_b map to the same collection
name, because the mapping replaces hyphens by underscores. -/
theorem C9_counterexample :
    get_collection_name "a-b" = get_collection_name "a_b" ∧
    ("a-b" : String) ≠ "a_b" :=
  ⟨rfl, by decide⟩

/-- Inverse of the hyphen replacement on underscore-free character lists. -/
theorem map_replace_inverse :
    ∀ l : List Char, '_' ∉ l → (l.map replaceHyphen).map replaceUnderscore = l := by
  intro l hl
  induction l with
  | nil => rfl
  | cons c rest ih =>
      have hc : c ≠ '_' := fun h => hl (h ▸ List.mem_cons_self _ _)
      have hrest : '_' ∉ rest := fun h => hl (List.mem_cons_of_mem _ h)
      simp only [List.map_cons]
      rw [ih hrest]
      have hhead : replaceUnderscore (replaceHyphen c) = c := by
        unfold replaceHyphen replaceUnderscore
        by_cases h1 : c = '-'
        · simp [h1]
        · simp [h1, hc]
      rw [hhead]

/-- C9 amended: the collection-name mapping is a pure function of the session
id (deterministic by construction) but is injective only on ids that contain
no underscore; ids differing in hyphen versus underscore collide. -/
theorem C9_collection_name_amended :
    ∀ s t : String, '_' ∉ s.data → '_' ∉ t.data →
      get_collection_name s = get_collection_name t → s = t := by
  intro s t hs ht h
  have h2 : collectionNameChars s.data = collectionNameChars t.data :=
    congrArg String.data h
  unfold collectionNameChars at h2
  have h3 : s.data.map replaceHyphen = t.data.map replaceHyphen :=
    List.append_cancel_left h2
  have h4 : s.data = t.data := by
    rw [← map_replace_inverse s.data hs, ← map_replace_inverse t.data ht, h3]
  cases s with
  | mk d1 =>
      cases t with
      | mk d2 => exact congrArg String.mk h4

/-- Witness for the amended C9 at a concrete underscore-free id. -/
theorem C9_collection_name_witness :
    ('_' ∉ "a-b".data) ∧ ("a-b" : String) = "a-b" :=
  ⟨by decide, C9_collection_name_amended "a-b" "a-b" (by decide) (by decide) rfl⟩

/-- C6 counterexample: retrieving for a session id that was never ingested
does not fail with a no-index error — load_session points the handle at the
(auto-created, empty) collection, and retrieve_context returns the empty list
as a silent success. -/
theorem C6_counterexample :
    assocFind ragInit.collections (get_collection_name "ghost") = none ∧
    retrieve_context ragInit "python experience" none (some "ghost") =
      Except.ok (load_session ragInit "ghost", []) :=
  ⟨rfl, rfl⟩

/-- C6 amended: retrieve_context raises the no-vector-store error only when
no (truthy, different) session id is passed and no store handle has ever been
loaded; when an un-ingested session id is passed, the session is loaded
unconditionally (the collection is auto-created empty) and the call returns
an empty list as a silent success. -/
theorem C6_retrieve_amended :
    (∀ (st : RAGState) (q : String) (k : Option Int),
        st.vectorstore = none →
        retrieve_context st q k none = Except.error RAGError.noVectorStore) ∧
    (∀ (st : RAGState) (q : String) (sid : String),
        sid ≠ "" →
        some sid ≠ st.current_session_id →
        assocFind st.collections (get_collection_name sid) = none →
        retrieve_context st q none (some sid) =
          Except.ok (load_session st sid, [])) := by
  constructor
  · intro st q k h
    simp [retrieve_context, h]
  · intro st q sid h1 h2 h3
    simp only [retrieve_context]
    rw [if_pos ⟨h1, h2⟩]
    simp [load_session, similaritySearch, h3]

/-- Witness for the amended C6: the fresh service with no id errors, and a
concrete never-ingested id yields the silent empty success. -/
theorem C6_retrieve_witness :
    retrieve_context ragInit "any query" none none =
      Except.error RAGError.noVectorStore ∧
    retrieve_context ragInit "python experience" none (some "ghost2") =
      Except.ok (load_session ragInit "ghost2", []) :=
  ⟨C6_retrieve_amended.1 ragInit "any query" none rfl,
    C6_retrieve_amended.2 ragInit "python experience" "ghost2" (by decide) (by decide) rfl⟩

/-- C2 counterexample: there is no batch response-recording operation and no
LengthMismatch check; the response route run on a READY session — exactly
where the claim says recording succeeds — fails with the
not-expecting-response error, and no transition to EVALUATING occurs. -/
theorem C2_counterexample :
    readySession.status = InterviewStatus.READY ∧
    route_submit_response readyStore "s1" "answer one" 5 =
      Except.error (RouteError.notExpectingResponse InterviewStatus.READY) :=
  ⟨rfl, rfl⟩

/-- C2 amended: responses are recorded one question at a time by the route,
not as a batch, and no length check exists.  The route fails with a 404-style
error for an unknown id, rejects the submission unless the status is
AWAITING_RESPONSE (in particular READY sessions are rejected), and on the
final question a successful submission records the response, advances, and
transitions the session to EVALUATING. -/
theorem C2_submit_route_amended :
    (∀ (st : SessionStore) (id r : String) (now : Nat),
        assocFind st id = none →
        route_submit_response st id r now =
          Except.error (RouteError.sessionNotFoundResponse id)) ∧
    (∀ (st : SessionStore) (id r : String) (now : Nat) (s : InterviewSession),
        assocFind st id = some s →
        s.status ≠ InterviewStatus.AWAITING_RESPONSE →
        route_submit_response st id r now =
          Except.error (RouteError.notExpectingResponse s.status)) ∧
    (∀ (st : SessionStore) (id r : String) (now : Nat) (s : InterviewSession)
        (q : QuestionState),
        assocFind st id = some s →
        s.status = InterviewStatus.AWAITING_RESPONSE →
        s.current_question = some q →
        q.status ≠ QuestionStatus.FOLLOW_UP_ASKED →
        s.current_question_index + 1 ≥ s.questions.length →
        ∃ st3 s3,
          route_submit_response st id r now = Except.ok (st3, true) ∧
          assocFind st3 id = some s3 ∧
          s3.status = InterviewStatus.EVALUATING) := by
  refine ⟨?_, ?_, ?_⟩
  · intro st id r now h
    simp [route_submit_response, h]
  · intro st id r now s hf hs
    simp only [route_submit_response, hf]
    rw [if_pos hs]
  · intro st id r now s q hf hs hq hfu hlast
    have hfu2 : decide (q.status = QuestionStatus.FOLLOW_UP_ASKED) = false := by
      simp [hfu]
    have hidx : s.current_question_index < s.questions.length := by
      by_contra hge
      push_neg at hge
      rw [InterviewSession.current_question, List.get?_eq_none.mpr hge] at hq
      cases hq
    have hsub := sessionSubmitResponse_primary s q r now hq
    set q2 : QuestionState :=
      { q with
        primary_response := some r
        status := QuestionStatus.ANSWERED
        answered_at := some now } with hq2def
    set s1 : InterviewSession := touch
      { s with
        questions := s.questions.set s.current_question_index q2
        pending_response := some r
        response_event_set := true
        status := InterviewStatus.IN_PROGRESS } now with hs1def
    have h1q : s1.current_question = some q2 := by
      show (s.questions.set s.current_question_index q2).get? s.current_question_index =
        some q2
      exact List.get?_set_eq_of_lt _ hidx
    have h1nc : q2.status ≠ QuestionStatus.COMPLETED := by simp [hq2def]
    have h1last : s1.current_question_index + 1 ≥ s1.questions.length := by
      show s.current_question_index + 1 ≥ (s.questions.set s.current_question_index q2).length
      simpa [List.length_set] using hlast
    have hadv := sessionAdvance_last s1 q2 now h1q h1nc h1last
    have hfind1 : assocFind (assocInsert st id s1) id = some s1 := by
      rw [assocFind_insert]
      simp
    refine ⟨assocInsert (assocInsert st id s1) id
        (touch { s1 with status := InterviewStatus.EVALUATING } now),
      touch { s1 with status := InterviewStatus.EVALUATING } now, ?_, ?_, rfl⟩
    · simp only [route_submit_response, hf]
      rw [if_neg (fun hne => hne hs)]
      simp only [hq, hfu2]
      simp only [submit_response, hf, hsub]
      simp only [advance_to_next_question, hfind1, hadv]
      rfl
    · rw [assocFind_insert]
      simp

/-- Witness for the amended C2 at the empty registry, the concrete READY
session, and the concrete AWAITING_RESPONSE session on its only question. -/
theorem C2_submit_route_witness :
    route_submit_response [] "nope" "hi" 1 =
      Except.error (RouteError.sessionNotFoundResponse "nope") ∧
    route_submit_response readyStore "s1" "hi" 5 =
      Except.error (RouteError.notExpectingResponse InterviewStatus.READY) ∧
    (∃ st3 s3,
      route_submit_response awaitingStore "s1" "I built an API." 9 =
        Except.ok (st3, true) ∧
      assocFind st3 "s1" = some s3 ∧
      s3.status = InterviewStatus.EVALUATING) := by
  refine ⟨C2_submit_route_amended.1 [] "nope" "hi" 1 rfl, ?_, ?_⟩
  · have h := C2_submit_route_amended.2.1 readyStore "s1" "hi" 5 readySession rfl
      (by decide)
    rw [h]
    rfl
  · exact C2_submit_route_amended.2.2 awaitingStore "s1" "I built an API." 9
      awaitingSession awaitingQuestion rfl rfl rfl (by decide) (by decide)

/-- C10: recording a primary response leaves the current question ANSWERED;
advance_to_next_question appends a transcript entry only for a COMPLETED
question; hence along the route flow — one primary response per question,
each followed by an advance — the transcript is still empty when the session
enters EVALUATING. -/
theorem C10_transcript_empty :
    (∀ (s : InterviewSession) (q : QuestionState) (r : String) (now : Nat)
        (s1 : InterviewSession),
        s.current_question = some q →
        sessionSubmitResponse s r false now = Except.ok s1 →
        ∃ q1, s1.current_question = some q1 ∧ q1.status = QuestionStatus.ANSWERED) ∧
    (∀ (s : InterviewSession) (now : Nat),
        s.current_question.map QuestionState.status ≠ some QuestionStatus.COMPLETED →
        ((sessionAdvanceToNextQuestion s now).1).transcript_entries =
          s.transcript_entries) ∧
    (∀ (s : InterviewSession) (now : Nat) (rs : List String),
        s.transcript_entries = [] →
        s.current_question_index + rs.length = s.questions.length →
        1 ≤ rs.length →
        ∃ s2, runPrimaryFlow now s rs = Except.ok s2 ∧
          s2.status = InterviewStatus.EVALUATING ∧
          s2.transcript_entries = []) := by
  refine ⟨?_, sessionAdvance_transcript, ?_⟩
  · intro s q r now s1 hq hok
    have hidx : s.current_question_index < s.questions.length := by
      by_contra hge
      push_neg at hge
      rw [InterviewSession.current_question, List.get?_eq_none.mpr hge] at hq
      cases hq
    rw [sessionSubmitResponse_primary s q r now hq] at hok
    injection hok with h1
    subst h1
    refine ⟨{ q with
        primary_response := some r
        status := QuestionStatus.ANSWERED
        answered_at := some now }, ?_, rfl⟩
    show (s.questions.set s.current_question_index _).get? s.current_question_index =
      some _
    exact List.get?_set_eq_of_lt _ hidx
  · intro s now rs htr hlen hpos
    obtain ⟨s2, h1, h2, h3⟩ := runPrimaryFlow_spec rs s now hlen hpos
    exact ⟨s2, h1, h2, h3.trans htr⟩

/-- Witness for C10 at the concrete one-question AWAITING_RESPONSE session. -/
theorem C10_transcript_witness :
    (∃ q1, answeredSession.current_question = some q1 ∧
      q1.status = QuestionStatus.ANSWERED) ∧
    ((sessionAdvanceToNextQuestion awaitingSession 9).1).transcript_entries =
      awaitingSession.transcript_entries ∧
    (∃ s2, runPrimaryFlow 9 awaitingSession ["I built an API."] = Except.ok s2 ∧
      s2.status = InterviewStatus.EVALUATING ∧ s2.transcript_entries = []) :=
  ⟨C10_transcript_empty.1 awaitingSession awaitingQuestion "I built an API." 9
      answeredSession rfl rfl,
    C10_transcript_empty.2.1 awaitingSession 9 (by decide),
    C10_transcript_empty.2.2 awaitingSession 9 ["I built an API."] rfl rfl
      (by decide)⟩

end InterviewCoach
